import Mathlib

/-!
Verification of the AP2 charity-donation mandate pipeline.

This file gives a shallow embedding of the three pipeline tools of the
repository (charity_tools.save_user_choice, merchant_tools.create_cart_mandate,
payment_tools.create_payment_mandate) together with the helpers they use
(_validate_charity_data, _validate_intent_expiry, _validate_cart_expiry,
_generate_merchant_signature, _create_intent_mandate, _create_payment_mandate),
and proves properties of the embedded definitions.

Modelling conventions, used consistently below:
- Timestamps are parsed instants, modelled as Int epoch seconds.  A value of
  type PTime is `some t` for a string datetime.fromisoformat accepts and
  `none` for a string it rejects (the ValueError/TypeError branch).
- Python floats carrying donation amounts are modelled as Rat.  The textual
  rendering of a number (f-string interpolation, the pydantic float-to-str
  coercion in PaymentCurrencyAmount) is modelled by toString; which exact
  decimal spelling is produced is irrelevant to every property proved here,
  only that it is a fixed function of the value.
- Python dicts read with .get are modelled as structures with Option fields
  (none = key absent); .get(k, default) becomes Option.getD.
- The shared ADK session state is a structure with one field per state key
  the tools touch, plus the conversational consent decision, which the
  ConsentGate surfaces in dialogue and which the tools never read.
- hashlib.sha256 is implemented below (FIPS 180-4, over Nat with explicit
  mod 2^32), and json.dumps(sort_keys=True, separators=(',', ':')) is the
  canonical serializer of the Json type below.
-/

/-! ## Byte-wise string comparison (Python sorts dict keys with str <) -/

def charListLeb : List Char → List Char → Bool
  | [], _ => true
  | _ :: _, [] => false
  | a :: as, b :: bs =>
    if a.toNat < b.toNat then true
    else if b.toNat < a.toNat then false
    else charListLeb as bs

def strLeb (a b : String) : Bool :=
  charListLeb a.data b.data

/-! ## JSON values and the canonical serialization used for signing -/

/-- Json models the dictionary that pydantic model_dump(mode='json') yields:
null, booleans, integers, strings, arrays, and objects given as key-value
lists in insertion order. -/
inductive Json where
  | null : Json
  | bool : Bool → Json
  | num : Int → Json
  | str : String → Json
  | arr : List Json → Json
  | obj : List (String × Json) → Json

/-- keyLe compares two key-value pairs by key only, exactly as
json.dumps(sort_keys=True) orders the items of a dict. -/
def keyLe {β : Type} (p q : String × β) : Prop :=
  strLeb p.1 q.1 = true

instance {β : Type} : DecidableRel (keyLe (β := β)) :=
  fun p q => instDecidableEqBool (strLeb p.1 q.1) true

/-- sortK sorts a key-value list by key (stable insertion sort). -/
def sortK {β : Type} (l : List (String × β)) : List (String × β) :=
  List.insertionSort keyLe l

def hexDigit (n : Nat) : Char :=
  if n < 10 then Char.ofNat (48 + n) else Char.ofNat (87 + n)

/-- uHex renders a \uXXXX escape body: four lowercase hex digits. -/
def uHex (m : Nat) : List Char :=
  [hexDigit (m / 4096 % 16), hexDigit (m / 256 % 16), hexDigit (m / 16 % 16), hexDigit (m % 16)]

/-- escChar models the per-character escaping of Python json.dumps with
ensure_ascii=True: printable ASCII other than quote and backslash is kept,
the two-character escapes of the JSON grammar are used where they exist, and
everything else becomes \uXXXX (a surrogate pair beyond the BMP). -/
def escChar (c : Char) : List Char :=
  let n := c.toNat
  if c = '"' then ['\\', '"']
  else if c = '\\' then ['\\', '\\']
  else if n = 8 then ['\\', 'b']
  else if n = 9 then ['\\', 't']
  else if n = 10 then ['\\', 'n']
  else if n = 12 then ['\\', 'f']
  else if n = 13 then ['\\', 'r']
  else if n < 32 then '\\' :: 'u' :: uHex n
  else if n < 127 then [c]
  else if n < 65536 then '\\' :: 'u' :: uHex n
  else
    '\\' :: 'u' :: uHex (55296 + (n - 65536) / 1024) ++ ('\\' :: 'u' :: uHex (56320 + (n - 65536) % 1024))

/-- jsonQuote models the serialization of a JSON string literal. -/
def jsonQuote (s : String) : String :=
  "\"" ++ String.mk (s.data.flatMap escChar) ++ "\""

mutual

/-- canonical is the stable serialization of _generate_merchant_signature,
step 2: json.dumps(d, sort_keys=True, separators=(',', ':')).  Each object's
items are serialized and ordered by key; since the comparator looks only at
keys and both sorts are stable, serializing the items first and then sorting
by key yields exactly the dump order. -/
def canonical : Json → String
  | Json.null => "null"
  | Json.bool b => if b then "true" else "false"
  | Json.num n => toString n
  | Json.str s => jsonQuote s
  | Json.arr xs => "[" ++ String.intercalate "," (canonicalList xs) ++ "]"
  | Json.obj kvs =>
    "\x7b" ++ String.intercalate "," ((sortK (pairsSer kvs)).map (fun p => p.2)) ++ "\x7d"

def canonicalList : List Json → List String
  | [] => []
  | x :: xs => canonical x :: canonicalList xs

def pairsSer : List (String × Json) → List (String × String)
  | [] => []
  | kv :: kvs => (kv.1, jsonQuote kv.1 ++ ":" ++ canonical kv.2) :: pairsSer kvs

end

mutual

/-- norm is the key-order normal form of a Json value: every object's items
are recursively normalised and put in sorted key order.  Two values are
structurally identical up to key insertion order exactly when their normal
forms are equal. -/
def Json.norm : Json → Json
  | Json.null => Json.null
  | Json.bool b => Json.bool b
  | Json.num n => Json.num n
  | Json.str s => Json.str s
  | Json.arr xs => Json.arr (normList xs)
  | Json.obj kvs => Json.obj (sortK (normPairs kvs))

def normList : List Json → List Json
  | [] => []
  | x :: xs => Json.norm x :: normList xs

def normPairs : List (String × Json) → List (String × Json)
  | [] => []
  | kv :: kvs => (kv.1, Json.norm kv.2) :: normPairs kvs

end

def nodupKeysB : List String → Bool
  | [] => true
  | k :: ks => (!ks.contains k) && nodupKeysB ks

mutual

/-- wellKeyed holds when no object anywhere in the value repeats a key,
which is automatic for values arising from Python dicts. -/
def wellKeyed : Json → Bool
  | Json.null => true
  | Json.bool _ => true
  | Json.num _ => true
  | Json.str _ => true
  | Json.arr xs => wellKeyedList xs
  | Json.obj kvs => nodupKeysB (kvs.map (fun kv => kv.1)) && wellKeyedPairs kvs

def wellKeyedList : List Json → Bool
  | [] => true
  | x :: xs => wellKeyed x && wellKeyedList xs

def wellKeyedPairs : List (String × Json) → Bool
  | [] => true
  | kv :: kvs => wellKeyed kv.2 && wellKeyedPairs kvs

end

/-! ## SHA-256 (FIPS 180-4), over Nat with explicit reduction mod 2^32 -/

def M32 : Nat := 4294967296

def rotr32 (n x : Nat) : Nat :=
  (x / 2 ^ n + x % 2 ^ n * 2 ^ (32 - n)) % M32

def not32 (x : Nat) : Nat :=
  4294967295 - x % M32

def ch32 (x y z : Nat) : Nat :=
  (x &&& y) ^^^ (not32 x &&& z)

def maj32 (x y z : Nat) : Nat :=
  (x &&& y) ^^^ (x &&& z) ^^^ (y &&& z)

def bSig0 (x : Nat) : Nat := rotr32 2 x ^^^ rotr32 13 x ^^^ rotr32 22 x

def bSig1 (x : Nat) : Nat := rotr32 6 x ^^^ rotr32 11 x ^^^ rotr32 25 x

def sSig0 (x : Nat) : Nat := rotr32 7 x ^^^ rotr32 18 x ^^^ (x / 2 ^ 3)

def sSig1 (x : Nat) : Nat := rotr32 17 x ^^^ rotr32 19 x ^^^ (x / 2 ^ 10)

def shaK : List Nat :=
  [1116352408, 1899447441, 3049323471, 3921009573,
   961987163, 1508970993, 2453635748, 2870763221,
   3624381080, 310598401, 607225278, 1426881987,
   1925078388, 2162078206, 2614888103, 3248222580,
   3835390401, 4022224774, 264347078, 604807628,
   770255983, 1249150122, 1555081692, 1996064986,
   2554220882, 2821834349, 2952996808, 3210313671,
   3336571891, 3584528711, 113926993, 338241895,
   666307205, 773529912, 1294757372, 1396182291,
   1695183700, 1986661051, 2177026350, 2456956037,
   2730485921, 2820302411, 3259730800, 3345764771,
   3516065817, 3600352804, 4094571909, 275423344,
   430227734, 506948616, 659060556, 883997877,
   958139571, 1322822218, 1537002063, 1747873779,
   1955562222, 2024104815, 2227730452, 2361852424,
   2428436474, 2756734187, 3204031479, 3329325298]

structure Hash8 where
  a : Nat
  b : Nat
  c : Nat
  d : Nat
  e : Nat
  f : Nat
  g : Nat
  h : Nat

def shaInit : Hash8 :=
  ⟨1779033703, 3144134277, 1013904242, 2773480762, 1359893119, 2600822924, 528734635, 1541459225⟩

def shaRound (st : Hash8) (kw : Nat × Nat) : Hash8 :=
  let t1 := (st.h + bSig1 st.e + ch32 st.e st.f st.g + kw.1 + kw.2) % M32
  let t2 := (bSig0 st.a + maj32 st.a st.b st.c) % M32
  ⟨(t1 + t2) % M32, st.a, st.b, st.c, (st.d + t1) % M32, st.e, st.f, st.g⟩

def extendSchedule : List Nat → Nat → List Nat
  | rev, 0 => rev
  | rev, n + 1 =>
    extendSchedule
      (((sSig1 (rev.getD 1 0) + rev.getD 6 0 + sSig0 (rev.getD 14 0) + rev.getD 15 0) % M32) :: rev)
      n

def schedule (w16 : List Nat) : List Nat :=
  (extendSchedule w16.reverse 48).reverse

def bytesToWords : List Nat → List Nat
  | b1 :: b2 :: b3 :: b4 :: rest =>
    (b1 * 16777216 + b2 * 65536 + b3 * 256 + b4) :: bytesToWords rest
  | _ => []

def processBlock (st : Hash8) (block : List Nat) : Hash8 :=
  let ws := schedule (bytesToWords block)
  let c := (ws.zip shaK).foldl shaRound st
  ⟨(st.a + c.a) % M32, (st.b + c.b) % M32, (st.c + c.c) % M32, (st.d + c.d) % M32,
   (st.e + c.e) % M32, (st.f + c.f) % M32, (st.g + c.g) % M32, (st.h + c.h) % M32⟩

def toBlocks : List Nat → List (List Nat)
  | [] => []
  | x :: xs => (x :: xs).take 64 :: toBlocks ((x :: xs).drop 64)
termination_by l => l.length
decreasing_by
  simp [List.length_drop]
  omega

def lenBytes (n : Nat) : List Nat :=
  [n / 2 ^ 56 % 256, n / 2 ^ 48 % 256, n / 2 ^ 40 % 256, n / 2 ^ 32 % 256,
   n / 2 ^ 24 % 256, n / 2 ^ 16 % 256, n / 2 ^ 8 % 256, n % 256]

def padBytes (msg : List Nat) : List Nat :=
  let l := msg.length
  let k := (64 - (l + 9) % 64) % 64
  msg ++ [128] ++ List.replicate k 0 ++ lenBytes (8 * l)

def sha256words (msg : List Nat) : Hash8 :=
  (toBlocks (padBytes msg)).foldl processBlock shaInit

def wordBytes (w : Nat) : List Nat :=
  [w / 16777216 % 256, w / 65536 % 256, w / 256 % 256, w % 256]

def digestBytes (st : Hash8) : List Nat :=
  wordBytes st.a ++ wordBytes st.b ++ wordBytes st.c ++ wordBytes st.d ++
  wordBytes st.e ++ wordBytes st.f ++ wordBytes st.g ++ wordBytes st.h

def hexOfBytes (l : List Nat) : List Char :=
  l.flatMap (fun b => [hexDigit (b / 16), hexDigit (b % 16)])

/-- charUtf8 is the UTF-8 encoding of one character, as a list of bytes. -/
def charUtf8 (c : Char) : List Nat :=
  let n := c.toNat
  if n < 128 then [n]
  else if n < 2048 then [192 + n / 64, 128 + n % 64]
  else if n < 65536 then [224 + n / 4096, 128 + n / 64 % 64, 128 + n % 64]
  else [240 + n / 262144, 128 + n / 4096 % 64, 128 + n / 64 % 64, 128 + n % 64]

def utf8Encode (s : String) : List Nat :=
  s.data.flatMap charUtf8

/-- sha256hexChars models hashlib.sha256(bytes).hexdigest() as the list of
its 64 lowercase hex characters. -/
def sha256hexChars (msg : List Nat) : List Char :=
  hexOfBytes (digestBytes (sha256words msg))

/-- jsonSign is _generate_merchant_signature after the model_dump step:
canonical JSON serialization, UTF-8 encoding, SHA-256, then the tag
"SIG_" followed by the first 16 hex digest characters. -/
def jsonSign (j : Json) : String :=
  "SIG_" ++ String.mk ((sha256hexChars (utf8Encode (canonical j))).take 16)

def isHexChar (c : Char) : Bool :=
  ('0' ≤ c && c ≤ '9') || ('a' ≤ c && c ≤ 'f')

/-! ## Data model of the mandate pipeline -/

/-- PTime is a parsed timestamp: `some t` (epoch seconds) when
datetime.fromisoformat accepts the stored string, `none` when parsing raises
ValueError or TypeError. -/
abbrev PTime := Option Int

/-- IntentDict is the intent_mandate dictionary built by
_create_intent_mandate and stored in session state.  The amount key is a
custom (non-AP2) field read back with .get, hence Option. -/
structure IntentDict where
  user_cart_confirmation_required : Bool := true
  natural_language_description : String := ""
  merchants : List String := []
  skus : Option (List String) := none
  requires_refundability : Bool := false
  intent_expiry : PTime := none
  timestamp : PTime := none
  intent_id : String := ""
  charity_ein : String := ""
  amount : Option Rat := none
  currency : String := "USD"

structure AmountDict where
  currency : Option String := none
  value : Option String := none

structure ItemDict where
  label : Option String := none
  amount : Option AmountDict := none

structure DetailsDict where
  id : Option String := none
  display_items : List ItemDict := []
  total : Option ItemDict := none

structure MethodDataDict where
  supported_methods : Option String := none
  supported_networks : List String := []
  supported_types : List String := []

structure PaymentRequestDict where
  method_data : List MethodDataDict := []
  details : Option DetailsDict := none
  request_shipping : Option Bool := none

/-- CartContentsDict is the contents block of a cart_mandate dictionary as
the payment tool reads it: every key may be absent (Option none), matching
the .get defaults in payment_tools. -/
structure CartContentsDict where
  id : Option String := none
  cart_expiry : Option PTime := none
  merchant_name : Option String := none
  user_cart_confirmation_required : Option Bool := none
  payment_request : Option PaymentRequestDict := none

/-- CartDict is the stored cart_mandate dictionary: the model_dump of the
CartMandate pydantic model plus the top-level timestamp key that
create_cart_mandate adds after signing. -/
structure CartDict where
  contents : Option CartContentsDict := none
  merchant_authorization : Option String := none
  timestamp : Option PTime := none

structure PaymentAmount where
  currency : String
  value : String

structure PaymentMandateContents where
  payment_mandate_id : String
  payment_details_id : String
  timestamp : Int
  user_consent : Bool
  consent_timestamp : Option Int
  amount : PaymentAmount
  merchant_name : String

structure PaymentMandateDict where
  payment_mandate_contents : PaymentMandateContents
  agent_present : Bool
  timestamp : Int

structure PaymentResultDict where
  transaction_id : String
  status : String
  amount : String
  currency : String
  merchant : String
  timestamp : Int
  simulation : Bool

/-- ConsentDecision is the outcome the conversational ConsentGate surfaces:
an explicit affirmative or an explicit negative. -/
inductive ConsentDecision where
  | affirmative : ConsentDecision
  | negative : ConsentDecision
deriving DecidableEq

/-- SessionState is the shared ADK session state: one field per state key
written by the tools, plus the consent decision of the conversational
ConsentGate (absent when never asked).  The tools read and write only the
four mandate keys; no tool reads consent. -/
structure SessionState where
  intent_mandate : Option IntentDict := none
  cart_mandate : Option CartDict := none
  payment_mandate : Option PaymentMandateDict := none
  payment_result : Option PaymentResultDict := none
  consent : Option ConsentDecision := none

/-! ## Expiry validators (merchant_tools._validate_intent_expiry,
payment_tools._validate_cart_expiry) -/

/-- validate_intent_expiry embeds _validate_intent_expiry: an unparseable
expiry string is the except branch; otherwise expired iff expiry < now. -/
def validate_intent_expiry (intent_expiry : PTime) (now : Int) : Bool × String :=
  match intent_expiry with
  | none => (false, "Invalid intent_expiry format")
  | some e => if e < now then (false, "IntentMandate expired at " ++ toString e) else (true, "")

/-- validate_cart_expiry embeds _validate_cart_expiry, including its two
structural checks before the parse. -/
def validate_cart_expiry (cart_mandate : CartDict) (now : Int) : Bool × String :=
  match cart_mandate.contents with
  | none => (false, "CartMandate missing AP2 contents wrapper")
  | some contents =>
    match contents.cart_expiry with
    | none => (false, "CartMandate missing cart_expiry field")
    | some none => (false, "Invalid cart_expiry format")
    | some (some e) =>
      if e < now then (false, "CartMandate expired at " ++ toString e) else (true, "")

/-! ## IntentStage (charity_tools) -/

/-- isSpaceChar recognises the ASCII whitespace that Python str.strip
removes. -/
def isSpaceChar (c : Char) : Bool :=
  c.toNat = 32 || (9 ≤ c.toNat && c.toNat ≤ 13)

/-- pyStrip models Python str.strip(): drop whitespace from both ends. -/
def pyStrip (s : String) : String :=
  String.mk (((s.data.dropWhile isSpaceChar).reverse.dropWhile isSpaceChar).reverse)

/-- validate_charity_data embeds _validate_charity_data.  The EIN check of
the source is exactly: truthy, length 10, and a hyphen at index 2 (the
truthiness test is subsumed by the length test). -/
def validate_charity_data (charity_name charity_ein : String) (amount : Rat) : Bool × String :=
  if (pyStrip charity_name).isEmpty then
    (false, "Charity name cannot be empty")
  else if charity_ein.length ≠ 10 ∨ charity_ein.data.getD 2 ' ' ≠ '-' then
    (false, "Invalid EIN format: " ++ charity_ein ++ ". Expected format: XX-XXXXXXX")
  else if amount ≤ 0 then
    (false, "Donation amount must be positive, got: $" ++ toString amount)
  else if amount > 1000000 then
    (false, "Donation amount exceeds maximum of $1,000,000: $" ++ toString amount)
  else (true, "")

/-- create_intent_mandate embeds _create_intent_mandate called at instant
now: expiry is now + 1 hour, the id is built from the EIN digits and the
epoch seconds. -/
def create_intent_mandate (charity_name charity_ein : String) (amount : Rat) (now : Int) :
    IntentDict :=
  { user_cart_confirmation_required := true
    natural_language_description := "Donate $" ++ toString amount ++ " to " ++ charity_name
    merchants := [charity_name]
    skus := none
    requires_refundability := false
    intent_expiry := some (now + 3600)
    timestamp := some now
    intent_id := "intent_" ++ (charity_ein.replace "-" "") ++ "_" ++ toString now
    charity_ein := charity_ein
    amount := some amount
    currency := "USD" }

structure SaveChoiceResult where
  status : String
  message : String
  intent_id : Option String := none
  expiry : Option PTime := none

/-- save_user_choice embeds charity_tools.save_user_choice: validate, then
build the IntentMandate and write it to state; on validation failure return
the error and leave the state untouched. -/
def save_user_choice (charity_name charity_ein : String) (amount : Rat)
    (tool_state : SessionState) (now : Int) : SaveChoiceResult × SessionState :=
  match validate_charity_data charity_name charity_ein amount with
  | (false, msg) => ({ status := "error", message := msg }, tool_state)
  | (true, _) =>
    let intent_mandate := create_intent_mandate charity_name charity_ein amount now
    ({ status := "success"
       message := "Created IntentMandate: $" ++ toString amount ++ " donation to " ++
         charity_name ++ " (EIN: " ++ charity_ein ++ ")"
       intent_id := some intent_mandate.intent_id
       expiry := some intent_mandate.intent_expiry },
     { tool_state with intent_mandate := some intent_mandate })

/-! ## OfferStage (merchant_tools) -/

/-- cartContentsJson is the model_dump(mode='json') of the CartContents
pydantic model as a Json value, with the insertion order the model declares.
Absent optional fields are omitted; on the creation path every field is
present.  A parsed cart_expiry instant is dumped back as its (abstracted)
ISO rendering via toString. -/
def cartContentsJson (cc : CartContentsDict) : Json :=
  Json.obj
    ((match cc.id with | none => [] | some v => [("id", Json.str v)]) ++
     (match cc.cart_expiry with
      | none => []
      | some none => [("cart_expiry", Json.null)]
      | some (some e) => [("cart_expiry", Json.str (toString e))]) ++
     (match cc.merchant_name with | none => [] | some v => [("merchant_name", Json.str v)]) ++
     (match cc.user_cart_confirmation_required with
      | none => [] | some v => [("user_cart_confirmation_required", Json.bool v)]) ++
     (match cc.payment_request with
      | none => []
      | some pr =>
        [("payment_request", Json.obj
          ([("method_data", Json.arr (pr.method_data.map (fun md =>
              Json.obj
                [("supported_methods",
                    match md.supported_methods with | none => Json.null | some s => Json.str s),
                 ("data", Json.obj
                   [("supported_networks", Json.arr (md.supported_networks.map Json.str)),
                    ("supported_types", Json.arr (md.supported_types.map Json.str))])])))] ++
           (match pr.details with
            | none => []
            | some d =>
              [("details", Json.obj
                ((match d.id with | none => [] | some v => [("id", Json.str v)]) ++
                 [("display_items", Json.arr (d.display_items.map (fun it =>
                    Json.obj
                      ((match it.label with | none => [] | some v => [("label", Json.str v)]) ++
                       (match it.amount with
                        | none => []
                        | some am =>
                          [("amount", Json.obj
                            ((match am.currency with
                              | none => [] | some v => [("currency", Json.str v)]) ++
                             (match am.value with
                              | none => [] | some v => [("value", Json.str v)])))])))))] ++
                 (match d.total with
                  | none => []
                  | some it =>
                    [("total", Json.obj
                      ((match it.label with | none => [] | some v => [("label", Json.str v)]) ++
                       (match it.amount with
                        | none => []
                        | some am =>
                          [("amount", Json.obj
                            ((match am.currency with
                              | none => [] | some v => [("currency", Json.str v)]) ++
                             (match am.value with
                              | none => [] | some v => [("value", Json.str v)])))])))])))]) ++
           (match pr.request_shipping with
            | none => []
            | some b => [("options", Json.obj [("request_shipping", Json.bool b)])])))]))

/-- generate_merchant_signature embeds _generate_merchant_signature:
model_dump, canonical sorted compact JSON, SHA-256, "SIG_" plus the first
16 hex characters. -/
def generate_merchant_signature (cart_contents : CartContentsDict) : String :=
  jsonSign (cartContentsJson cart_contents)

structure CartResult where
  status : String
  message : String
  cart_id : Option String := none
  cart_expiry : Option PTime := none
  signature : Option String := none

/-- create_cart_mandate embeds merchant_tools.create_cart_mandate called at
instant now.  Note the source's defaults: an empty merchant list falls back
to "Unknown Charity" and a missing amount to 0.0; the signature is computed
over the contents model, and the top-level timestamp is added to the stored
dictionary only afterwards. -/
def create_cart_mandate (tool_state : SessionState) (now : Int) :
    CartResult × SessionState :=
  match tool_state.intent_mandate with
  | none =>
    ({ status := "error"
       message := "No IntentMandate found. Shopping Agent must create intent first." }, tool_state)
  | some intent_mandate =>
    match validate_intent_expiry intent_mandate.intent_expiry now with
    | (false, msg) => ({ status := "error", message := msg }, tool_state)
    | (true, _) =>
      let charity_name := match intent_mandate.merchants with
        | [] => "Unknown Charity"
        | m :: _ => m
      let amount := intent_mandate.amount.getD 0
      let cart_id :=
        "cart_" ++ String.mk ((sha256hexChars (utf8Encode (charity_name ++ toString now))).take 12)
      let cart_expiry : Int := now + 15 * 60
      let amount_str := toString amount
      let cart_contents : CartContentsDict :=
        { id := some cart_id
          cart_expiry := some (some cart_expiry)
          merchant_name := some charity_name
          user_cart_confirmation_required := some false
          payment_request := some
            { method_data := [{ supported_methods := some "CARD"
                                supported_networks := ["visa", "mastercard", "amex"]
                                supported_types := ["debit", "credit"] }]
              details := some
                { id := some ("order_" ++ cart_id)
                  display_items := [{ label := some ("Donation to " ++ charity_name)
                                      amount := some { currency := some "USD"
                                                       value := some amount_str } }]
                  total := some { label := some "Total Donation"
                                  amount := some { currency := some "USD"
                                                   value := some amount_str } } }
              request_shipping := some false } }
      let signature := generate_merchant_signature cart_contents
      let cart_mandate : CartDict :=
        { contents := some cart_contents
          merchant_authorization := some signature
          timestamp := some (some now) }
      ({ status := "success"
         message := "Created signed CartMandate " ++ cart_id ++ " for $" ++ amount_str ++
           " donation to " ++ charity_name
         cart_id := some cart_id
         cart_expiry := some (some cart_expiry)
         signature := some signature },
       { tool_state with cart_mandate := some cart_mandate })

/-! ## PaymentStage (payment_tools) -/

def emptyPaymentRequest : PaymentRequestDict := {}

def emptyDetails : DetailsDict := {}

def emptyItem : ItemDict := {}

def emptyAmount : AmountDict := {}

/-- create_payment_mandate_contents embeds _create_payment_mandate at
instant now; the source projects cart_mandate["contents"], which its only
caller has already checked is present, so the contents block is the
argument here. -/
def create_payment_mandate_contents (contents : CartContentsDict) (consent_granted : Bool)
    (now : Int) : PaymentMandateDict :=
  let cart_id := contents.id.getD "unknown"
  let payment_request := contents.payment_request.getD emptyPaymentRequest
  let details := payment_request.details.getD emptyDetails
  let total := details.total.getD emptyItem
  let amount_obj := total.amount.getD emptyAmount
  { payment_mandate_contents :=
      { payment_mandate_id :=
          "payment_" ++ String.mk ((sha256hexChars (utf8Encode (cart_id ++ toString now))).take 12)
        payment_details_id := cart_id
        timestamp := now
        user_consent := consent_granted
        consent_timestamp := if consent_granted then some now else none
        amount := { currency := amount_obj.currency.getD "USD"
                    value := amount_obj.value.getD "0.00" }
        merchant_name := contents.merchant_name.getD "Unknown" }
    agent_present := true
    timestamp := now }

structure PaymentToolResult where
  status : String
  message : String
  transaction_id : Option String := none
  payment_mandate_id : Option String := none

/-- create_payment_mandate embeds payment_tools.create_payment_mandate
called at instant now (the source samples datetime.now several times within
one call; all samples are modelled as the same instant).  The source sets
consent_granted = True unconditionally and never reads a consent decision
from state. -/
def create_payment_mandate (tool_state : SessionState) (now : Int) :
    PaymentToolResult × SessionState :=
  match tool_state.cart_mandate with
  | none =>
    ({ status := "error"
       message := "No CartMandate found. Merchant Agent must create cart first." }, tool_state)
  | some cart_mandate =>
    match cart_mandate.contents with
    | none =>
      ({ status := "error"
         message := "Invalid CartMandate structure: missing contents wrapper" }, tool_state)
    | some contents =>
      match validate_cart_expiry cart_mandate now with
      | (false, msg) => ({ status := "error", message := msg }, tool_state)
      | (true, _) =>
        let cart_id := contents.id.getD "unknown"
        let merchant_name := contents.merchant_name.getD "Unknown Merchant"
        let payment_request := contents.payment_request.getD emptyPaymentRequest
        let details := payment_request.details.getD emptyDetails
        let total := details.total.getD emptyItem
        let amount_obj := total.amount.getD emptyAmount
        let amount_value := amount_obj.value.getD "0.00"
        let currency := amount_obj.currency.getD "USD"
        let consent_granted := true
        let payment_mandate := create_payment_mandate_contents contents consent_granted now
        let transaction_id :=
          "txn_" ++ String.mk ((sha256hexChars (utf8Encode (cart_id ++ toString now))).take 16)
        let payment_result : PaymentResultDict :=
          { transaction_id := transaction_id
            status := "completed"
            amount := amount_value
            currency := currency
            merchant := merchant_name
            timestamp := now
            simulation := true }
        ({ status := "success"
           message := "Payment of " ++ currency ++ " " ++ amount_value ++ " to " ++
             merchant_name ++ " processed successfully"
           transaction_id := some transaction_id
           payment_mandate_id := some payment_mandate.payment_mandate_contents.payment_mandate_id },
         { tool_state with payment_mandate := some payment_mandate
                           payment_result := some payment_result })

/-- recomputed_signature re-signs the contents block of a stored cart, the
auditor check the spec describes for tamper evidence. -/
def recomputed_signature (c : CartDict) : Option String :=
  c.contents.map generate_merchant_signature

/-! ## Concrete fixtures used by witnesses and counterexamples -/

/-- cartWithExpiry is a stored cart whose contents carry only the given
cart_expiry entry. -/
def cartWithExpiry (t : Option PTime) : CartDict :=
  { contents := some { cart_expiry := t } }

/-- validCart is a fully populated stored cart whose expiry is instant 1000. -/
def validCart : CartDict :=
  { contents := some
      { id := some "cart_demo"
        cart_expiry := some (some 1000)
        merchant_name := some "Room to Read"
        user_cart_confirmation_required := some false
        payment_request := some
          { method_data := []
            details := some
              { total := some { label := some "Total Donation"
                                amount := some { currency := some "USD"
                                                 value := some "50" } } } } }
    merchant_authorization := some "SIG_0000000000000000"
    timestamp := some (some 0) }

/-- consentDeniedState holds a valid unexpired cart while the conversational
consent decision is an explicit negative. -/
def consentDeniedState : SessionState :=
  { cart_mandate := some validCart
    consent := some ConsentDecision.negative }

/-- bareCart has a contents wrapper with a live expiry and nothing else:
no id, no merchant_name, no payment_request path. -/
def bareCart : CartDict :=
  { contents := some { cart_expiry := some (some 1000) } }

def bareCartState : SessionState :=
  { cart_mandate := some bareCart }

/-- emptyMerchantIntent is a stored intent whose merchant list is empty and
whose amount key is absent, with a live expiry. -/
def emptyMerchantIntent : IntentDict :=
  { merchants := []
    intent_expiry := some 1000
    amount := none }

def emptyMerchantState : SessionState :=
  { intent_mandate := some emptyMerchantIntent }

/-- lateOfferState is the state left by a successful save_user_choice at
instant 0; its intent expires at 3600. -/
def lateOfferState : SessionState :=
  (save_user_choice "Room to Read" "77-0479905" 50 {} 0).2

/-- expiredBothState holds an intent that expired at instant 10 and a cart
that expired at instant 20, both read at a later clock. -/
def expiredBothState : SessionState :=
  { intent_mandate := some { merchants := ["Room to Read"], intent_expiry := some 10,
                             amount := some 50 }
    cart_mandate := some (cartWithExpiry (some (some 20))) }

def c10Contents : CartContentsDict :=
  { id := some "cart_fixed"
    cart_expiry := some (some 50)
    merchant_name := some "Room to Read" }

/-- c10CartA and c10CartB share one contents block and one signature but
carry different top-level timestamps. -/
def c10CartA : CartDict :=
  { contents := some c10Contents
    merchant_authorization := some (generate_merchant_signature c10Contents)
    timestamp := some (some 1) }

def c10CartB : CartDict :=
  { contents := some c10Contents
    merchant_authorization := some (generate_merchant_signature c10Contents)
    timestamp := some (some 5) }

/-- c5x and c5y are one object written with its two keys in either
insertion order. -/
def c5x : Json := Json.obj [("b", Json.str "2"), ("a", Json.str "1")]

def c5y : Json := Json.obj [("a", Json.str "1"), ("b", Json.str "2")]

/-! ## Helper lemmas: the byte-wise key order -/

theorem charListLeb_total : ∀ as bs : List Char, charListLeb as bs = true ∨ charListLeb bs as = true
  | [], _ => Or.inl rfl
  | _ :: _, [] => Or.inr rfl
  | a :: as, b :: bs => by
    by_cases hab : a.toNat < b.toNat
    · left
      simp [charListLeb, hab]
    · by_cases hba : b.toNat < a.toNat
      · right
        simp [charListLeb, hba]
      · have := charListLeb_total as bs
        rcases this with h | h
        · left
          simpa [charListLeb, hab, hba] using h
        · right
          simpa [charListLeb, hab, hba] using h

theorem charListLeb_trans :
    ∀ as bs cs : List Char, charListLeb as bs = true → charListLeb bs cs = true →
      charListLeb as cs = true
  | [], _, _, _, _ => rfl
  | _ :: _, [], _, hab, _ => by simp [charListLeb] at hab
  | _ :: _, _ :: _, [], _, hbc => by simp [charListLeb] at hbc
  | a :: as, b :: bs, c :: cs, hab, hbc => by
    simp only [charListLeb] at hab hbc ⊢
    by_cases h1 : a.toNat < b.toNat
    · by_cases h2 : b.toNat < c.toNat
      · have h : a.toNat < c.toNat := by omega
        simp [h]
      · by_cases h3 : c.toNat < b.toNat
        · simp [h2, h3] at hbc
        · have h : a.toNat < c.toNat := by omega
          simp [h]
    · by_cases h4 : b.toNat < a.toNat
      · simp [h1, h4] at hab
      · by_cases h2 : b.toNat < c.toNat
        · have h : a.toNat < c.toNat := by omega
          simp [h]
        · by_cases h3 : c.toNat < b.toNat
          · simp [h2, h3] at hbc
          · have h5 : ¬ a.toNat < c.toNat := by omega
            have h6 : ¬ c.toNat < a.toNat := by omega
            simp only [h1, h4, if_neg, not_false_iff] at hab
            simp only [h2, h3, if_neg, not_false_iff] at hbc
            simp only [h5, h6, if_neg, not_false_iff]
            exact charListLeb_trans as bs cs hab hbc

theorem charListLeb_antisymm :
    ∀ as bs : List Char, charListLeb as bs = true → charListLeb bs as = true → as = bs
  | [], [], _, _ => rfl
  | [], _ :: _, _, hba => by simp [charListLeb] at hba
  | _ :: _, [], hab, _ => by simp [charListLeb] at hab
  | a :: as, b :: bs, hab, hba => by
    simp only [charListLeb] at hab hba
    by_cases h1 : a.toNat < b.toNat
    · have h2 : ¬ b.toNat < a.toNat := by omega
      simp [h1, h2] at hba
    · by_cases h2 : b.toNat < a.toNat
      · simp [h1, h2] at hab
      · have hc : a = b := Char.eq_of_val_eq (by
          apply UInt32.eq_of_val_eq
          apply Fin.eq_of_val_eq
          have : a.toNat = b.toNat := by omega
          exact this)
        have ht : as = bs :=
          charListLeb_antisymm as bs
            (by simpa [h1, h2] using hab) (by simpa [h1, h2] using hba)
        rw [hc, ht]

theorem strLeb_total (a b : String) : strLeb a b = true ∨ strLeb b a = true :=
  charListLeb_total a.data b.data

theorem strLeb_trans {a b c : String} (hab : strLeb a b = true) (hbc : strLeb b c = true) :
    strLeb a c = true :=
  charListLeb_trans a.data b.data c.data hab hbc

theorem strLeb_antisymm {a b : String} (hab : strLeb a b = true) (hba : strLeb b a = true) :
    a = b := by
  cases a with
  | mk da => cases b with
    | mk db =>
      have : da = db := charListLeb_antisymm da db hab hba
      rw [this]

instance keyLe_total {β : Type} : IsTotal (String × β) keyLe :=
  ⟨fun p q => strLeb_total p.1 q.1⟩

instance keyLe_trans {β : Type} : IsTrans (String × β) keyLe :=
  ⟨fun _ _ _ h1 h2 => strLeb_trans h1 h2⟩

theorem nodupKeysB_iff : ∀ l : List String, nodupKeysB l = true ↔ l.Nodup
  | [] => by simp [nodupKeysB]
  | k :: ks => by
    simp only [nodupKeysB, Bool.and_eq_true, Bool.not_eq_true', List.nodup_cons]
    rw [nodupKeysB_iff ks]
    constructor
    · rintro ⟨h1, h2⟩
      refine ⟨fun hm => ?_, h2⟩
      rw [List.contains, List.elem_iff.mpr hm] at h1
      simp at h1
    · rintro ⟨h1, h2⟩
      refine ⟨?_, h2⟩
      by_cases hc : ks.contains k = true
      · exact absurd (List.elem_iff.mp hc) h1
      · simpa using hc

/-- sortK_congr_perm: sorting by key is permutation-invariant once the keys
are distinct. -/
theorem sortK_congr_perm {β : Type} {m₁ m₂ : List (String × β)} (hp : m₁.Perm m₂)
    (hn : (m₁.map Prod.fst).Nodup) : sortK m₁ = sortK m₂ := by
  have hperm : (sortK m₁).Perm (sortK m₂) :=
    ((List.perm_insertionSort keyLe m₁).trans hp).trans (List.perm_insertionSort keyLe m₂).symm
  have hs₁ : (sortK m₁).Sorted keyLe := List.sorted_insertionSort keyLe m₁
  have hs₂ : (sortK m₂).Sorted keyLe := List.sorted_insertionSort keyLe m₂
  have hn₁ : ((sortK m₁).map Prod.fst).Nodup :=
    (((List.perm_insertionSort keyLe m₁).map Prod.fst).nodup_iff).mpr hn
  have hn₂ : ((sortK m₂).map Prod.fst).Nodup := by
    have := (hperm.map Prod.fst).nodup_iff
    exact this.mp hn₁
  have hne₁ : (sortK m₁).Pairwise (fun p q => p.1 ≠ q.1) := List.pairwise_map.mp hn₁
  have hne₂ : (sortK m₂).Pairwise (fun p q => p.1 ≠ q.1) := List.pairwise_map.mp hn₂
  haveI : IsAntisymm (String × β) (fun p q => keyLe p q ∧ p.1 ≠ q.1) :=
    ⟨fun p q hpq hqp => absurd (strLeb_antisymm hpq.1 hqp.1) hpq.2⟩
  exact List.eq_of_perm_of_sorted hperm (hs₁.and hne₁) (hs₂.and hne₂)

/-! ## Structural lemmas for the canonical serializer -/

theorem Json.recOnMem {motive : Json → Prop}
    (hnull : motive Json.null) (hbool : ∀ b, motive (Json.bool b))
    (hnum : ∀ n, motive (Json.num n)) (hstr : ∀ s, motive (Json.str s))
    (harr : ∀ xs, (∀ x, x ∈ xs → motive x) → motive (Json.arr xs))
    (hobj : ∀ kvs, (∀ kv, kv ∈ kvs → motive kv.2) → motive (Json.obj kvs)) :
    ∀ j, motive j
  | Json.null => hnull
  | Json.bool b => hbool b
  | Json.num n => hnum n
  | Json.str s => hstr s
  | Json.arr xs =>
    harr xs (fun x hx => Json.recOnMem hnull hbool hnum hstr harr hobj x)
  | Json.obj kvs =>
    hobj kvs (fun kv hkv => Json.recOnMem hnull hbool hnum hstr harr hobj kv.2)
termination_by j => sizeOf j
decreasing_by
  · have h := List.sizeOf_lt_of_mem hx
    simp only [Json.arr.sizeOf_spec]
    omega
  · have h := List.sizeOf_lt_of_mem hkv
    obtain ⟨k, v⟩ := kv
    simp only [Prod.mk.sizeOf_spec] at h
    simp only [Json.obj.sizeOf_spec]
    omega

theorem canonicalList_eq_map : ∀ xs : List Json, canonicalList xs = xs.map canonical
  | [] => rfl
  | x :: xs => by rw [canonicalList, List.map, canonicalList_eq_map xs]

theorem pairsSer_eq_map :
    ∀ kvs : List (String × Json),
      pairsSer kvs = kvs.map (fun kv => (kv.1, jsonQuote kv.1 ++ ":" ++ canonical kv.2))
  | [] => rfl
  | kv :: kvs => by rw [pairsSer, List.map, pairsSer_eq_map kvs]

theorem map_fst_pairsSer (kvs : List (String × Json)) :
    (pairsSer kvs).map Prod.fst = kvs.map Prod.fst := by
  rw [pairsSer_eq_map, List.map_map]
  rfl

theorem map_fst_normPairs : ∀ kvs : List (String × Json),
    (normPairs kvs).map Prod.fst = kvs.map Prod.fst
  | [] => rfl
  | kv :: kvs => by rw [normPairs, List.map, List.map, map_fst_normPairs kvs]

theorem wellKeyedList_mem : ∀ {xs : List Json}, wellKeyedList xs = true →
    ∀ {x : Json}, x ∈ xs → wellKeyed x = true
  | [], _, _, hx => absurd hx (List.not_mem_nil _)
  | y :: ys, h, x, hx => by
    rw [wellKeyedList, Bool.and_eq_true] at h
    rcases List.mem_cons.mp hx with rfl | hx
    · exact h.1
    · exact wellKeyedList_mem h.2 hx

theorem wellKeyedPairs_mem : ∀ {kvs : List (String × Json)}, wellKeyedPairs kvs = true →
    ∀ {kv : String × Json}, kv ∈ kvs → wellKeyed kv.2 = true
  | [], _, _, hx => absurd hx (List.not_mem_nil _)
  | y :: ys, h, kv, hx => by
    rw [wellKeyedPairs, Bool.and_eq_true] at h
    rcases List.mem_cons.mp hx with rfl | hx
    · exact h.1
    · exact wellKeyedPairs_mem h.2 hx

theorem pairsSer_normPairs :
    ∀ kvs : List (String × Json),
      (∀ kv ∈ kvs, canonical (Json.norm kv.2) = canonical kv.2) →
      pairsSer (normPairs kvs) = pairsSer kvs
  | [], _ => rfl
  | kv :: kvs, h => by
    rw [normPairs, pairsSer, pairsSer,
        pairsSer_normPairs kvs (fun x hx => h x (List.mem_cons_of_mem kv hx)),
        h kv (List.mem_cons_self kv kvs)]

theorem canonicalList_normList :
    ∀ xs : List Json, (∀ x ∈ xs, canonical (Json.norm x) = canonical x) →
      canonicalList (normList xs) = canonicalList xs
  | [], _ => rfl
  | x :: xs, h => by
    rw [normList, canonicalList, canonicalList,
        canonicalList_normList xs (fun y hy => h y (List.mem_cons_of_mem x hy)),
        h x (List.mem_cons_self x xs)]

/-- canonical_norm: serializing a value and serializing its key-order normal
form give the same canonical JSON, provided no object repeats a key. -/
theorem canonical_norm : ∀ j : Json, wellKeyed j = true → canonical (Json.norm j) = canonical j := by
  intro j
  induction j using Json.recOnMem with
  | hnull => intro _; rfl
  | hbool b => intro _; rfl
  | hnum n => intro _; rfl
  | hstr s => intro _; rfl
  | harr xs ih =>
    intro hw
    rw [Json.norm, canonical, canonical,
        canonicalList_normList xs (fun x hx => ih x hx (wellKeyedList_mem hw hx))]
  | hobj kvs ih =>
    intro hw
    rw [wellKeyed, Bool.and_eq_true] at hw
    rw [Json.norm, canonical, canonical]
    have h2 : pairsSer (normPairs kvs) = pairsSer kvs :=
      pairsSer_normPairs kvs (fun kv hkv => ih kv hkv (wellKeyedPairs_mem hw.2 hkv))
    have h1 : (pairsSer (sortK (normPairs kvs))).Perm (pairsSer (normPairs kvs)) := by
      rw [pairsSer_eq_map, pairsSer_eq_map]
      exact (List.perm_insertionSort keyLe (normPairs kvs)).map _
    have hp : (pairsSer (sortK (normPairs kvs))).Perm (pairsSer kvs) := h2 ▸ h1
    have hkeys : ((pairsSer (sortK (normPairs kvs))).map Prod.fst).Nodup := by
      rw [map_fst_pairsSer]
      have hperm : ((sortK (normPairs kvs)).map Prod.fst).Perm (kvs.map Prod.fst) := by
        have := (List.perm_insertionSort keyLe (normPairs kvs)).map Prod.fst
        rw [map_fst_normPairs] at this
        exact this
      have hnod : (kvs.map Prod.fst).Nodup := by
        have := hw.1
        rw [nodupKeysB_iff] at this
        simpa using this
      exact hperm.nodup_iff.mpr hnod
    rw [sortK_congr_perm hp hkeys]

theorem hexOfBytes_length : ∀ l : List Nat, (hexOfBytes l).length = 2 * l.length
  | [] => rfl
  | b :: l => by
    have ih := hexOfBytes_length l
    simp only [hexOfBytes, List.flatMap_cons, List.length_append, List.length_cons,
      List.length_nil] at ih ⊢
    omega

theorem digestBytes_length (st : Hash8) : (digestBytes st).length = 32 := by
  simp [digestBytes, wordBytes]

theorem sha256hexChars_length (msg : List Nat) : (sha256hexChars msg).length = 64 := by
  rw [sha256hexChars, hexOfBytes_length, digestBytes_length]

theorem hexDigit_isHex {n : Nat} (h : n < 16) : isHexChar (hexDigit n) = true := by
  interval_cases n <;> decide

theorem wordBytes_lt (w : Nat) : ∀ b ∈ wordBytes w, b < 256 := by
  intro b hb
  simp only [wordBytes, List.mem_cons, List.not_mem_nil, or_false] at hb
  rcases hb with rfl | rfl | rfl | rfl <;> exact Nat.mod_lt _ (by norm_num)

theorem digestBytes_lt (st : Hash8) : ∀ b ∈ digestBytes st, b < 256 := by
  intro b hb
  simp only [digestBytes, List.mem_append] at hb
  rcases hb with ((((((h | h) | h) | h) | h) | h) | h) | h <;>
    exact wordBytes_lt _ _ h

theorem hexOfBytes_isHex :
    ∀ l : List Nat, (∀ b ∈ l, b < 256) → ∀ c ∈ hexOfBytes l, isHexChar c = true
  | [], _, c, hc => absurd hc (List.not_mem_nil c)
  | b :: l, h, c, hc => by
    have hb : b < 256 := h b (List.mem_cons_self b l)
    simp only [hexOfBytes, List.flatMap_cons, List.mem_append, List.mem_cons,
      List.not_mem_nil, or_false] at hc
    rcases hc with (rfl | rfl) | hc
    · exact hexDigit_isHex (by omega)
    · exact hexDigit_isHex (by omega)
    · exact hexOfBytes_isHex l (fun x hx => h x (List.mem_cons_of_mem b hx)) c hc

theorem sha256hexChars_isHex (msg : List Nat) :
    ∀ c ∈ sha256hexChars msg, isHexChar c = true :=
  hexOfBytes_isHex _ (digestBytes_lt _)

/-! ## Claim C5 -/

/-- Claim C5: for any two structurally identical contents values (equal
key-value structure regardless of original key insertion order, rendered
here as equal key-order normal forms, with no repeated keys), the signing
function produces identical tags, and every tag is "SIG_" followed by the
first 16 hex characters of the SHA-256 digest of the canonical sorted-key
whitespace-free JSON serialization (shown to be 64 lowercase hex
characters). -/
theorem c5_signature_determinism_and_form (x y : Json)
    (hx : wellKeyed x = true) (hy : wellKeyed y = true) (h : Json.norm x = Json.norm y) :
    jsonSign x = jsonSign y ∧
    jsonSign x = "SIG_" ++ String.mk ((sha256hexChars (utf8Encode (canonical x))).take 16) ∧
    (sha256hexChars (utf8Encode (canonical x))).length = 64 ∧
    ∀ c ∈ sha256hexChars (utf8Encode (canonical x)), isHexChar c = true := by
  have hc : canonical x = canonical y := by
    rw [← canonical_norm x hx, ← canonical_norm y hy, h]
  exact ⟨by rw [jsonSign, jsonSign, hc], rfl, sha256hexChars_length _, sha256hexChars_isHex _⟩

/-- Witness for C5 at one concrete object written with its keys in two
different insertion orders. -/
theorem c5_signature_determinism_and_form_witness :
    wellKeyed c5x = true ∧ wellKeyed c5y = true ∧ Json.norm c5x = Json.norm c5y ∧
    jsonSign c5x = jsonSign c5y :=
  ⟨rfl, rfl, rfl, (c5_signature_determinism_and_form c5x c5y rfl rfl rfl).1⟩

/-! ## Claim C2 -/

/-- Counterexample to C2 as stated: the claim says an expiry equal to the
reference clock is invalid, but both validators use the strict comparison
expiry < now, so at expiry == now both report the mandate as still valid. -/
theorem c2_expiry_boundary_counterexample :
    (validate_intent_expiry (some 0) 0).1 = true ∧
    (validate_cart_expiry (cartWithExpiry (some (some 0))) 0).1 = true := by
  constructor <;> rfl

/-- Claim C2, amended: for every reference clock, both expiry checks treat
expiry == now as VALID (the code rejects only expiry < now, strictly),
expiry == now + 1s as valid, and expiry == now - 1s as invalid; an expiry
string that cannot be parsed yields the error branch (flag false with the
format-error message), not validity. -/
theorem c2_expiry_boundary (now : Int) :
    (validate_intent_expiry (some now) now).1 = true ∧
    (validate_cart_expiry (cartWithExpiry (some (some now))) now).1 = true ∧
    (validate_intent_expiry (some (now + 1)) now).1 = true ∧
    (validate_cart_expiry (cartWithExpiry (some (some (now + 1)))) now).1 = true ∧
    (validate_intent_expiry (some (now - 1)) now).1 = false ∧
    (validate_cart_expiry (cartWithExpiry (some (some (now - 1)))) now).1 = false ∧
    validate_intent_expiry none now = (false, "Invalid intent_expiry format") ∧
    validate_cart_expiry (cartWithExpiry (some none)) now = (false, "Invalid cart_expiry format") := by
  refine ⟨?_, ?_, ?_, ?_, ?_, ?_, rfl, rfl⟩ <;>
    simp [validate_intent_expiry, validate_cart_expiry, cartWithExpiry] <;> omega

/-! ## Claim C4 -/

theorem validate_charity_data_true_iff (n e : String) (a : Rat) :
    (validate_charity_data n e a).1 = true ↔
      ((pyStrip n).isEmpty = false ∧ e.length = 10 ∧ e.data.getD 2 ' ' = '-' ∧
       0 < a ∧ a ≤ 1000000) := by
  unfold validate_charity_data
  split_ifs with h1 h2 h3 h4
  · simp [h1]
  · constructor
    · intro h
      simp at h
    · rintro ⟨-, hlen, hdash, -, -⟩
      rcases h2 with h2 | h2
      · exact absurd hlen h2
      · exact absurd hdash h2
  · constructor
    · intro h
      simp at h
    · rintro ⟨-, -, -, h5, -⟩
      exact absurd h3 (not_le.mpr h5)
  · constructor
    · intro h
      simp at h
    · rintro ⟨-, -, -, -, h6⟩
      exact absurd h4 (not_lt.mpr h6)
  · push_neg at h2 h3 h4
    constructor
    · intro _
      exact ⟨by simpa using h1, h2.1, h2.2, lt_of_not_le (not_le.mpr h3), h4⟩
    · intro _
      rfl

theorem validate_charity_data_name_msg {n e : String} {a : Rat} (h : (pyStrip n).isEmpty = true) :
    validate_charity_data n e a = (false, "Charity name cannot be empty") := by
  unfold validate_charity_data
  rw [if_pos h]

theorem validate_charity_data_ein_msg {n e : String} {a : Rat} (h1 : (pyStrip n).isEmpty = false)
    (h2 : e.length ≠ 10 ∨ e.data.getD 2 ' ' ≠ '-') :
    validate_charity_data n e a =
      (false, "Invalid EIN format: " ++ e ++ ". Expected format: XX-XXXXXXX") := by
  unfold validate_charity_data
  rw [if_neg (by simp [h1]), if_pos h2]

theorem validate_charity_data_pos_msg {n e : String} {a : Rat} (h1 : (pyStrip n).isEmpty = false)
    (h2 : e.length = 10) (h3 : e.data.getD 2 ' ' = '-') (h4 : a ≤ 0) :
    validate_charity_data n e a =
      (false, "Donation amount must be positive, got: $" ++ toString a) := by
  unfold validate_charity_data
  rw [if_neg (by simp [h1]), if_neg (by push_neg; exact ⟨h2, h3⟩), if_pos h4]

theorem validate_charity_data_max_msg {n e : String} {a : Rat} (h1 : (pyStrip n).isEmpty = false)
    (h2 : e.length = 10) (h3 : e.data.getD 2 ' ' = '-') (h4 : 1000000 < a) :
    validate_charity_data n e a =
      (false, "Donation amount exceeds maximum of $1,000,000: $" ++ toString a) := by
  unfold validate_charity_data
  rw [if_neg (by simp [h1]), if_neg (by push_neg; exact ⟨h2, h3⟩),
      if_neg (not_le.mpr (lt_trans (by norm_num) h4)), if_pos h4]

theorem save_user_choice_of_validate_false {n e : String} {a : Rat} {s : SessionState} {now : Int}
    {m : String} (h : validate_charity_data n e a = (false, m)) :
    save_user_choice n e a s now = ({ status := "error", message := m }, s) := by
  unfold save_user_choice
  rw [h]

theorem save_user_choice_of_validate_true {n e : String} {a : Rat} {s : SessionState} {now : Int}
    {m : String} (h : validate_charity_data n e a = (true, m)) :
    save_user_choice n e a s now =
      ({ status := "success"
         message := "Created IntentMandate: $" ++ toString a ++ " donation to " ++ n ++
           " (EIN: " ++ e ++ ")"
         intent_id := some (create_intent_mandate n e a now).intent_id
         expiry := some (create_intent_mandate n e a now).intent_expiry },
       { s with intent_mandate := some (create_intent_mandate n e a now) }) := by
  unfold save_user_choice
  rw [h]

/-- Claim C4: save_user_choice succeeds exactly when the trimmed name is
non-empty, the EIN has exactly 10 characters with a hyphen at index 2, and
0 < amount ≤ 1,000,000 (so 0, -5 and 1,000,001 are rejected while 1,000,000
is accepted); on failure it returns the validation error of the first
failing field, whose message names that field, and leaves the state — in
particular the intent_mandate key — untouched; on success it writes the
IntentMandate. -/
theorem c4_save_user_choice_validation (charity_name charity_ein : String) (amount : Rat)
    (s : SessionState) (now : Int) :
    ((save_user_choice charity_name charity_ein amount s now).1.status = "success" ↔
      ((pyStrip charity_name).isEmpty = false ∧ charity_ein.length = 10 ∧
       charity_ein.data.getD 2 ' ' = '-' ∧ 0 < amount ∧ amount ≤ 1000000)) ∧
    ((save_user_choice charity_name charity_ein amount s now).1.status ≠ "success" →
      (save_user_choice charity_name charity_ein amount s now).1.status = "error" ∧
      (save_user_choice charity_name charity_ein amount s now).2 = s) ∧
    ((pyStrip charity_name).isEmpty = true →
      (save_user_choice charity_name charity_ein amount s now).1.message =
        "Charity name cannot be empty") ∧
    ((pyStrip charity_name).isEmpty = false →
      (charity_ein.length ≠ 10 ∨ charity_ein.data.getD 2 ' ' ≠ '-') →
      (save_user_choice charity_name charity_ein amount s now).1.message =
        "Invalid EIN format: " ++ charity_ein ++ ". Expected format: XX-XXXXXXX") ∧
    ((pyStrip charity_name).isEmpty = false → charity_ein.length = 10 →
      charity_ein.data.getD 2 ' ' = '-' → amount ≤ 0 →
      (save_user_choice charity_name charity_ein amount s now).1.message =
        "Donation amount must be positive, got: $" ++ toString amount) ∧
    ((pyStrip charity_name).isEmpty = false → charity_ein.length = 10 →
      charity_ein.data.getD 2 ' ' = '-' → 1000000 < amount →
      (save_user_choice charity_name charity_ein amount s now).1.message =
        "Donation amount exceeds maximum of $1,000,000: $" ++ toString amount) ∧
    ((save_user_choice charity_name charity_ein amount s now).1.status = "success" →
      (save_user_choice charity_name charity_ein amount s now).2 =
        { s with intent_mandate := some (create_intent_mandate charity_name charity_ein amount now) }) := by
  have hiff := validate_charity_data_true_iff charity_name charity_ein amount
  rcases hv : validate_charity_data charity_name charity_ein amount with ⟨b, m⟩
  rw [hv] at hiff
  cases b with
  | false =>
    rw [save_user_choice_of_validate_false hv]
    simp only at hiff
    refine ⟨?_, fun _ => ⟨rfl, rfl⟩, ?_, ?_, ?_, ?_, ?_⟩
    · simp only []
      constructor
      · intro h
        exact absurd h (by decide)
      · intro hc
        exact absurd (hiff.mpr hc) (by decide)
    · intro h1
      have := (validate_charity_data_name_msg (e := charity_ein) (a := amount) h1).symm.trans hv
      exact (Prod.mk.injEq _ _ _ _).mp this |>.2.symm
    · intro h1 h2
      have := (validate_charity_data_ein_msg h1 h2).symm.trans hv
      exact (Prod.mk.injEq _ _ _ _).mp this |>.2.symm
    · intro h1 h2 h3 h4
      have := (validate_charity_data_pos_msg h1 h2 h3 h4).symm.trans hv
      exact (Prod.mk.injEq _ _ _ _).mp this |>.2.symm
    · intro h1 h2 h3 h4
      have := (validate_charity_data_max_msg h1 h2 h3 h4).symm.trans hv
      exact (Prod.mk.injEq _ _ _ _).mp this |>.2.symm
    · intro h
      simp at h
  | true =>
    rw [save_user_choice_of_validate_true hv]
    simp only at hiff
    have hc := hiff.mp trivial
    refine ⟨⟨fun _ => hc, fun _ => rfl⟩, fun hne => absurd rfl hne, ?_, ?_, ?_, ?_, fun _ => rfl⟩
    · intro h1
      rw [hc.1] at h1
      exact absurd h1 (by decide)
    · intro _ h2
      rcases h2 with h2 | h2
      · exact absurd hc.2.1 h2
      · exact absurd hc.2.2.1 h2
    · intro _ _ _ h4
      exact absurd h4 (not_le.mpr hc.2.2.2.1)
    · intro _ _ _ h4
      exact absurd h4 (not_lt.mpr hc.2.2.2.2)

/-- Witness for C4: exercises the success cases (50 and the 1,000,000
boundary), each failing field in turn, and the rejected amounts 0, -5 and
1,000,001. -/
theorem c4_save_user_choice_validation_witness :
    (save_user_choice "Room to Read" "77-0479905" 50 {} 0).1.status = "success" ∧
    (save_user_choice "Room to Read" "77-0479905" 1000000 {} 0).1.status = "success" ∧
    (save_user_choice "" "77-0479905" 50 {} 0).1.message = "Charity name cannot be empty" ∧
    (save_user_choice "Room to Read" "770479905" 50 {} 0).1.message =
      "Invalid EIN format: " ++ "770479905" ++ ". Expected format: XX-XXXXXXX" ∧
    (save_user_choice "Room to Read" "77-0479905" 0 {} 0).1.status = "error" ∧
    (save_user_choice "Room to Read" "77-0479905" (-5) {} 0).1.status = "error" ∧
    (save_user_choice "Room to Read" "77-0479905" 1000001 {} 0).1.status = "error" :=
  ⟨(c4_save_user_choice_validation "Room to Read" "77-0479905" 50 {} 0).1.mpr (by decide),
   (c4_save_user_choice_validation "Room to Read" "77-0479905" 1000000 {} 0).1.mpr (by decide),
   (c4_save_user_choice_validation "" "77-0479905" 50 {} 0).2.2.1 (by decide),
   (c4_save_user_choice_validation "Room to Read" "770479905" 50 {} 0).2.2.2.1 (by decide)
     (Or.inl (by decide)),
   ((c4_save_user_choice_validation "Room to Read" "77-0479905" 0 {} 0).2.1 (by decide)).1,
   ((c4_save_user_choice_validation "Room to Read" "77-0479905" (-5) {} 0).2.1 (by decide)).1,
   ((c4_save_user_choice_validation "Room to Read" "77-0479905" 1000001 {} 0).2.1 (by decide)).1⟩

/-! ## Claim C8 -/

/-- Claim C8: a stored IntentMandate whose expiry is in the past makes
create_cart_mandate return an error and leave the whole state unchanged (so
no cart_mandate key is created and every previously written mandate is
intact); symmetrically a stored CartMandate whose expiry is in the past
makes create_payment_mandate return an error and leave the state unchanged
(so neither payment_mandate nor payment_result is written). -/
theorem c8_expired_mandates_halt (s : SessionState) (now : Int) :
    (∀ i e, s.intent_mandate = some i → i.intent_expiry = some e → e < now →
      (create_cart_mandate s now).1.status = "error" ∧ (create_cart_mandate s now).2 = s) ∧
    (∀ c cc e, s.cart_mandate = some c → c.contents = some cc →
      cc.cart_expiry = some (some e) → e < now →
      (create_payment_mandate s now).1.status = "error" ∧
      (create_payment_mandate s now).2 = s) := by
  constructor
  · intro i e hi he hlt
    simp only [create_cart_mandate, hi, validate_intent_expiry, he, if_pos hlt]
    exact ⟨trivial, trivial⟩
  · intro c cc e hc hcc he hlt
    simp only [create_payment_mandate, hc, validate_cart_expiry, hcc, he, if_pos hlt]
    exact ⟨trivial, trivial⟩

/-- Witness for C8 on a state holding an intent expired at 10 and a cart
expired at 20, read at clock 100. -/
theorem c8_expired_mandates_halt_witness :
    (create_cart_mandate expiredBothState 100).1.status = "error" ∧
    (create_cart_mandate expiredBothState 100).2 = expiredBothState ∧
    (create_payment_mandate expiredBothState 100).1.status = "error" ∧
    (create_payment_mandate expiredBothState 100).2 = expiredBothState :=
  have h := c8_expired_mandates_halt expiredBothState 100
  have h1 := h.1 _ 10 rfl rfl (by decide)
  have h2 := h.2 _ _ 20 rfl rfl rfl (by decide)
  ⟨h1.1, h1.2, h2.1, h2.2⟩

/-! ## Claim C1 -/

/-- Counterexample to C1 as stated: a session state whose consent decision
is an explicit negative, holding a valid unexpired cart.  The claim says
create_payment_mandate must fail and leave no payment_mandate or
payment_result in the store; the code succeeds and writes both. -/
theorem c1_consent_gate_counterexample :
    consentDeniedState.consent = some ConsentDecision.negative ∧
    (create_payment_mandate consentDeniedState 0).1.status = "success" ∧
    (create_payment_mandate consentDeniedState 0).2.payment_mandate.isSome = true ∧
    (create_payment_mandate consentDeniedState 0).2.payment_result.isSome = true :=
  ⟨rfl, rfl, rfl, rfl⟩

/-- Claim C1, amended: create_payment_mandate never consults a consent
decision (the source hard-codes consent_granted = True; consent is only
conversational).  For every session state holding a well-formed unexpired
cart_mandate, even when the recorded consent decision is negative or
absent, the operation succeeds, writes both payment_mandate and
payment_result, and the written PaymentMandate records user_consent =
true. -/
theorem c1_consent_not_enforced (s : SessionState) (now : Int) (c : CartDict)
    (cc : CartContentsDict) (e : Int)
    (hc : s.cart_mandate = some c) (hcc : c.contents = some cc)
    (he : cc.cart_expiry = some (some e)) (hv : ¬ e < now)
    (hcons : s.consent ≠ some ConsentDecision.affirmative) :
    (create_payment_mandate s now).1.status = "success" ∧
    (create_payment_mandate s now).2.payment_mandate =
      some (create_payment_mandate_contents cc true now) ∧
    (create_payment_mandate s now).2.payment_result.isSome = true ∧
    (create_payment_mandate_contents cc true now).payment_mandate_contents.user_consent = true := by
  simp only [create_payment_mandate, hc, hcc, validate_cart_expiry, he, if_neg hv]
  refine ⟨?_, ?_, ?_, ?_⟩ <;> trivial

/-- Witness for C1 (amended) at the concrete consent-denied state. -/
theorem c1_consent_not_enforced_witness :
    consentDeniedState.consent ≠ some ConsentDecision.affirmative ∧
    (create_payment_mandate consentDeniedState 500).1.status = "success" :=
  ⟨by decide,
   (c1_consent_not_enforced consentDeniedState 500 validCart _ 1000 rfl rfl rfl
     (by decide) (by decide)).1⟩

/-! ## Claim C9 -/

/-- Counterexample to C9 as stated: on a cart whose contents block has a
live expiry but no merchant_name, id, or payment_request path, the payment
tool succeeds, but the PaymentMandate's merchant name defaults to
"Unknown", not "Unknown Merchant" (only the TransactionResult uses
"Unknown Merchant"). -/
theorem c9_defaults_counterexample :
    (create_payment_mandate bareCartState 0).1.status = "success" ∧
    ((create_payment_mandate bareCartState 0).2.payment_mandate.map
      (fun pm => pm.payment_mandate_contents.merchant_name)) = some "Unknown" ∧
    "Unknown" ≠ "Unknown Merchant" :=
  ⟨rfl, rfl, by decide⟩

/-- Claim C9, amended: for every stored cart whose contents wrapper has an
unexpired cart_expiry but no payment_request path, no merchant_name and no
id, create_payment_mandate still succeeds, producing a PaymentMandate with
amount value "0.00", currency "USD", payment_details_id "unknown" and
merchant_name "Unknown", and a TransactionResult with amount "0.00",
currency "USD" and merchant "Unknown Merchant". -/
theorem c9_missing_fields_defaults (s : SessionState) (now : Int) (c : CartDict)
    (cc : CartContentsDict) (e : Int)
    (hc : s.cart_mandate = some c) (hcc : c.contents = some cc)
    (he : cc.cart_expiry = some (some e)) (hv : ¬ e < now)
    (hpr : cc.payment_request = none) (hmn : cc.merchant_name = none) (hid : cc.id = none) :
    (create_payment_mandate s now).1.status = "success" ∧
    (create_payment_mandate s now).2.payment_mandate =
      some (create_payment_mandate_contents cc true now) ∧
    (create_payment_mandate_contents cc true now).payment_mandate_contents.amount.value =
      "0.00" ∧
    (create_payment_mandate_contents cc true now).payment_mandate_contents.amount.currency =
      "USD" ∧
    (create_payment_mandate_contents cc true now).payment_mandate_contents.merchant_name =
      "Unknown" ∧
    (create_payment_mandate_contents cc true now).payment_mandate_contents.payment_details_id =
      "unknown" ∧
    ∃ pr, (create_payment_mandate s now).2.payment_result = some pr ∧
      pr.amount = "0.00" ∧ pr.currency = "USD" ∧ pr.merchant = "Unknown Merchant" := by
  simp only [create_payment_mandate, hc, hcc, validate_cart_expiry, he, if_neg hv]
  refine ⟨by trivial, by trivial, ?_, ?_, ?_, ?_, ?_⟩
  · simp [create_payment_mandate_contents, hpr, emptyPaymentRequest, emptyDetails, emptyItem,
      emptyAmount]
  · simp [create_payment_mandate_contents, hpr, emptyPaymentRequest, emptyDetails, emptyItem,
      emptyAmount]
  · simp [create_payment_mandate_contents, hmn]
  · simp [create_payment_mandate_contents, hid]
  · refine ⟨_, by trivial, ?_, ?_, ?_⟩ <;>
      simp [hpr, hmn, emptyPaymentRequest, emptyDetails, emptyItem, emptyAmount]

/-- Witness for C9 (amended) at the concrete bare cart. -/
theorem c9_missing_fields_defaults_witness :
    (create_payment_mandate bareCartState 5).1.status = "success" ∧
    ((create_payment_mandate bareCartState 5).2.payment_result.map (fun pr => pr.merchant)) =
      some "Unknown Merchant" :=
  have h := c9_missing_fields_defaults bareCartState 5 bareCart _ 1000 rfl rfl rfl
    (by decide) rfl rfl rfl
  ⟨h.1, by
    obtain ⟨pr, hpr, -, -, hm⟩ := h.2.2.2.2.2.2
    rw [hpr]
    simp [hm]⟩

/-! ## Claim C7 -/

/-- Counterexample to C7 as stated: a stored intent with an empty merchant
list and no amount key does not make create_cart_mandate fail; the offer
succeeds with the fallback merchant "Unknown Charity". -/
theorem c7_empty_merchants_counterexample :
    emptyMerchantIntent.merchants = [] ∧ emptyMerchantIntent.amount = none ∧
    (create_cart_mandate emptyMerchantState 0).1.status = "success" ∧
    (((create_cart_mandate emptyMerchantState 0).2.cart_mandate.bind
      (fun c => c.contents)).map (fun cc => cc.merchant_name)) =
        some (some "Unknown Charity") :=
  ⟨rfl, rfl, rfl, rfl⟩

/-- Claim C7, amended: for every stored unexpired IntentMandate whose
merchant list is empty and whose amount key is absent, create_cart_mandate
does not fail: it succeeds and produces a CartMandate for merchant
"Unknown Charity" with a total amount rendered from 0. -/
theorem c7_empty_merchants_defaults (s : SessionState) (now : Int) (i : IntentDict) (e : Int)
    (hi : s.intent_mandate = some i) (he : i.intent_expiry = some e) (hv : ¬ e < now)
    (hm : i.merchants = []) (ha : i.amount = none) :
    (create_cart_mandate s now).1.status = "success" ∧
    ∃ c cc, (create_cart_mandate s now).2.cart_mandate = some c ∧ c.contents = some cc ∧
      cc.merchant_name = some "Unknown Charity" ∧
      ∃ pr d t am, cc.payment_request = some pr ∧ pr.details = some d ∧ d.total = some t ∧
        t.amount = some am ∧ am.value = some (toString (0 : Rat)) ∧
        am.currency = some "USD" := by
  simp only [create_cart_mandate, hi, validate_intent_expiry, he, if_neg hv, hm, ha,
    Option.getD_none]
  exact ⟨by trivial, _, _, by trivial, by trivial, by trivial, _, _, _, _, by trivial,
    by trivial, by trivial, by trivial, by trivial, by trivial⟩

/-- Witness for C7 (amended) at the concrete empty-merchant intent. -/
theorem c7_empty_merchants_defaults_witness :
    (create_cart_mandate emptyMerchantState 3).1.status = "success" ∧
    (((create_cart_mandate emptyMerchantState 3).2.cart_mandate.bind
      (fun c => c.contents)).map (fun cc => cc.merchant_name)) =
        some (some "Unknown Charity") :=
  have h := c7_empty_merchants_defaults emptyMerchantState 3 emptyMerchantIntent 1000
    rfl rfl (by decide) rfl rfl
  ⟨h.1, by
    obtain ⟨c, cc, h1, h2, h3, -⟩ := h.2
    simp [h1, h2, h3]⟩

/-! ## Claim C6 -/

/-- Counterexample to C6 as stated: an intent created at instant 0 expires
at 3600 (one hour), and an offer created at 3000 — while the intent is
still valid — succeeds with cart_expiry 3900, which is NOT earlier than the
intent's expiry 3600.  The cart window is not always inside the remaining
intent window. -/
theorem c6_cart_expiry_counterexample :
    (lateOfferState.intent_mandate.map (fun i => i.intent_expiry)) = some (some 3600) ∧
    (create_cart_mandate lateOfferState 3000).1.status = "success" ∧
    (create_cart_mandate lateOfferState 3000).1.cart_expiry = some (some 3900) ∧
    ¬ (3900 : Int) < 3600 :=
  ⟨rfl, rfl, by decide, by decide⟩

/-- Claim C6, amended: every successful offer from a stored intent sets
cart_expiry = now + 15 minutes, and the intent was unexpired (now ≤
intent_expiry); the cart expiry precedes the intent expiry only when the
offer is created more than 15 minutes before the intent expires — offers
created in the final 15 minutes of the intent window outlive it. -/
theorem c6_cart_expiry_window (s : SessionState) (now : Int) (i : IntentDict) (e : Int)
    (hi : s.intent_mandate = some i) (he : i.intent_expiry = some e)
    (hs : (create_cart_mandate s now).1.status = "success") :
    (create_cart_mandate s now).1.cart_expiry = some (some (now + 15 * 60)) ∧
    (∃ c cc, (create_cart_mandate s now).2.cart_mandate = some c ∧ c.contents = some cc ∧
      cc.cart_expiry = some (some (now + 15 * 60))) ∧
    now ≤ e := by
  by_cases hlt : e < now
  · simp [create_cart_mandate, hi, validate_intent_expiry, he, if_pos hlt] at hs
  · simp only [create_cart_mandate, hi, validate_intent_expiry, he, if_neg hlt]
    exact ⟨by trivial, ⟨_, _, by trivial, by trivial, by trivial⟩, by omega⟩

/-- Witness for C6 (amended): offer at instant 100 from the intent created
at instant 0. -/
theorem c6_cart_expiry_window_witness :
    (create_cart_mandate lateOfferState 100).1.cart_expiry = some (some (100 + 15 * 60)) ∧
    (100 : Int) ≤ 3600 :=
  have h := c6_cart_expiry_window lateOfferState 100 _ 3600 rfl rfl (by decide)
  ⟨h.1, h.2.2⟩

/-! ## Claim C10 -/

/-- Claim C10: the merchant_authorization of a stored cart is a function of
the contents block alone — the top-level timestamp is attached after
signing.  Part one: every cart stored by a successful create_cart_mandate
run verifies (re-signing its stored contents reproduces its stored
authorization).  Part two: any two stored cart dictionaries with equal
contents and different top-level timestamps re-sign to the same tag, and
when each one verifies, their stored authorizations are equal. -/
theorem c10_signature_over_contents_only :
    (∀ s : SessionState, ∀ now : Int, (create_cart_mandate s now).1.status = "success" →
      ∃ c, (create_cart_mandate s now).2.cart_mandate = some c ∧
        recomputed_signature c = c.merchant_authorization) ∧
    (∀ c1 c2 : CartDict, c1.contents = c2.contents → c1.timestamp ≠ c2.timestamp →
      recomputed_signature c1 = recomputed_signature c2 ∧
      (recomputed_signature c1 = c1.merchant_authorization →
       recomputed_signature c2 = c2.merchant_authorization →
       c1.merchant_authorization = c2.merchant_authorization)) := by
  constructor
  · intro s now hs
    rcases hI : s.intent_mandate with _ | i
    · simp [create_cart_mandate, hI] at hs
    · rcases hv : validate_intent_expiry i.intent_expiry now with ⟨b, m⟩
      cases b with
      | false => simp [create_cart_mandate, hI, hv] at hs
      | true =>
        simp only [create_cart_mandate, hI, hv]
        exact ⟨_, rfl, rfl⟩
  · intro c1 c2 hcc hts
    unfold recomputed_signature
    rw [hcc]
    exact ⟨rfl, fun h1 h2 => h1.symm.trans h2⟩

/-- Witness for C10: one successful run, and the two fixed carts that share
contents and signature but differ in their top-level timestamps. -/
theorem c10_signature_over_contents_only_witness :
    (∃ c, (create_cart_mandate lateOfferState 200).2.cart_mandate = some c ∧
      recomputed_signature c = c.merchant_authorization) ∧
    c10CartA.contents = c10CartB.contents ∧
    c10CartA.timestamp ≠ c10CartB.timestamp ∧
    recomputed_signature c10CartA = recomputed_signature c10CartB ∧
    c10CartA.merchant_authorization = c10CartB.merchant_authorization :=
  have h1 := c10_signature_over_contents_only.1 lateOfferState 200 (by decide)
  have h2 := c10_signature_over_contents_only.2 c10CartA c10CartB rfl (by decide)
  ⟨h1, rfl, by decide, h2.1, h2.2 rfl rfl⟩

/-! ## Claim C3 -/

/-- Claim C3: for every end-to-end run in which intent creation, offer
creation and payment processing each return success, the stored mandates
are linked: the cart's merchant_name is the intent's first merchant, the
cart total's value is the rendering of the intent amount, the
PaymentMandate's payment_details_id is the cart contents id, and the
PaymentMandate's amount value and currency equal the cart total's. -/
theorem c3_chain_linkage (charity_name charity_ein : String) (amount : Rat)
    (s0 : SessionState) (t1 t2 t3 : Int)
    (h1 : (save_user_choice charity_name charity_ein amount s0 t1).1.status = "success")
    (h2 : (create_cart_mandate
      (save_user_choice charity_name charity_ein amount s0 t1).2 t2).1.status = "success")
    (h3 : (create_payment_mandate (create_cart_mandate
      (save_user_choice charity_name charity_ein amount s0 t1).2 t2).2 t3).1.status =
        "success") :
    ∃ im cart cc pr d tot am pm,
      (create_payment_mandate (create_cart_mandate
        (save_user_choice charity_name charity_ein amount s0 t1).2 t2).2
          t3).2.intent_mandate = some im ∧
      (create_payment_mandate (create_cart_mandate
        (save_user_choice charity_name charity_ein amount s0 t1).2 t2).2
          t3).2.cart_mandate = some cart ∧
      cart.contents = some cc ∧
      (create_payment_mandate (create_cart_mandate
        (save_user_choice charity_name charity_ein amount s0 t1).2 t2).2
          t3).2.payment_mandate = some pm ∧
      cc.merchant_name = im.merchants.head? ∧
      im.amount = some amount ∧
      cc.payment_request = some pr ∧ pr.details = some d ∧ d.total = some tot ∧
      tot.amount = some am ∧ am.value = some (toString amount) ∧
      cc.id = some pm.payment_mandate_contents.payment_details_id ∧
      am.value = some pm.payment_mandate_contents.amount.value ∧
      am.currency = some pm.payment_mandate_contents.amount.currency := by
  rcases hv : validate_charity_data charity_name charity_ein amount with ⟨b, m⟩
  cases b with
  | false =>
    rw [save_user_choice_of_validate_false hv] at h1
    simp at h1
  | true =>
    rw [save_user_choice_of_validate_true hv] at h2 h3 ⊢
    by_cases hexp : t1 + 3600 < t2
    · simp [create_cart_mandate, create_intent_mandate, validate_intent_expiry,
        if_pos hexp] at h2
    · simp only [create_cart_mandate, create_intent_mandate, validate_intent_expiry,
        if_neg hexp] at h3 ⊢
      by_cases hexp2 : t2 + 900 < t3
      · simp [create_payment_mandate, validate_cart_expiry, if_pos hexp2] at h3
      · have hexp2b : ¬ t2 + 15 * 60 < t3 := by omega
        simp only [create_payment_mandate, validate_cart_expiry, if_neg hexp2b]
        exact ⟨_, _, _, _, _, _, _, _, rfl, rfl, rfl, rfl, rfl, rfl, rfl, rfl, rfl, rfl,
          rfl, rfl, rfl, rfl⟩

/-- Witness for C3: the literal end-to-end run (Room to Read, EIN
77-0479905, 50 USD) at instants 0, 10 and 20. -/
theorem c3_chain_linkage_witness :
    (save_user_choice "Room to Read" "77-0479905" 50 {} 0).1.status = "success" ∧
    (create_cart_mandate
      (save_user_choice "Room to Read" "77-0479905" 50 {} 0).2 10).1.status = "success" ∧
    (create_payment_mandate (create_cart_mandate
      (save_user_choice "Room to Read" "77-0479905" 50 {} 0).2 10).2 20).1.status =
        "success" ∧
    ∃ im cart cc pr d tot am pm,
      (create_payment_mandate (create_cart_mandate
        (save_user_choice "Room to Read" "77-0479905" 50 {} 0).2 10).2
          20).2.intent_mandate = some im ∧
      (create_payment_mandate (create_cart_mandate
        (save_user_choice "Room to Read" "77-0479905" 50 {} 0).2 10).2
          20).2.cart_mandate = some cart ∧
      cart.contents = some cc ∧
      (create_payment_mandate (create_cart_mandate
        (save_user_choice "Room to Read" "77-0479905" 50 {} 0).2 10).2
          20).2.payment_mandate = some pm ∧
      cc.merchant_name = im.merchants.head? ∧
      im.amount = some 50 ∧
      cc.payment_request = some pr ∧ pr.details = some d ∧ d.total = some tot ∧
      tot.amount = some am ∧ am.value = some (toString (50 : Rat)) ∧
      cc.id = some pm.payment_mandate_contents.payment_details_id ∧
      am.value = some pm.payment_mandate_contents.amount.value ∧
      am.currency = some pm.payment_mandate_contents.amount.currency :=
  ⟨by decide, by decide, by decide,
   c3_chain_linkage "Room to Read" "77-0479905" 50 {} 0 10 20
     (by decide) (by decide) (by decide)⟩
